import Mathlib

/-!
Shallow embedding of the two programs of the CTree repository:

* `src/main.c` — the poll-driven GLFW variant: `glfwInit`, one
  `glfwCreateWindow(800, 600, "Hello GLFW", NULL, NULL)`, then
  `while (!glfwWindowShouldClose(window)) { glfwSwapBuffers(window);
  glfwPollEvents(); } return 1;`, with `return -1` when `glfwInit` fails.
* `src/ccode/createwindow.c` — the message-driven Win32 variant:
  `WndProc` handling `WM_CLOSE` (PostQuitMessage(0), return 0) and
  `WM_PAINT` (BeginPaint / FillRect with COLOR_WINDOW+1 / EndPaint,
  return 0), all other messages going to `DefWindowProc`; and `wWinMain`
  registering the class (result unchecked), calling `CreateWindowEx`
  (800×600, "Hello Win32"), returning -1 on a null handle, otherwise
  ShowWindow / UpdateWindow and the `GetMessage` / `TranslateMessage` /
  `DispatchMessage` loop, returning the wParam of the quit message.

The platform is an oracle (an environment structure); each program is an
executable function of the environment and a fuel bound, returning the
trace of platform calls made together with `some exitCode` when the
process returned, or `none` when it is still running (blocked or out of
fuel).
-/

namespace CTree

/-! ## Poll-driven variant (src/main.c) -/

/-- Platform oracle for the GLFW variant: whether `glfwInit` succeeds,
whether `glfwCreateWindow` returns a non-null handle, and the result of
the k-th `glfwWindowShouldClose` call. -/
structure GlfwEnv where
  initOk : Bool
  createOk : Bool
  shouldClose : Nat → Bool

/-- One platform call made by `main`.  `handleNull` records whether the
window pointer passed to the call was null. -/
inductive GlfwEvent where
  | glfwInit (ok : Bool)
  | glfwCreateWindow (width height : Int) (title : String) (ok : Bool)
  | glfwWindowShouldClose (handleNull : Bool) (res : Bool)
  | glfwSwapBuffers (handleNull : Bool)
  | glfwPollEvents
deriving DecidableEq, Repr

/-- The `while (!glfwWindowShouldClose(window)) { glfwSwapBuffers(window);
glfwPollEvents(); }` loop of `src/main.c`, indexed by the number `i` of
should-close polls already made and bounded by `fuel`.  Returns the trace
of calls and `some 1` when the loop exits (the `return 1` after the
loop), `none` when fuel is exhausted while still looping. -/
def pollLoop (env : GlfwEnv) (hNull : Bool) : Nat → Nat → List GlfwEvent × Option Int
  | _, 0 => ([], none)
  | i, fuel + 1 =>
    if env.shouldClose i then
      ([GlfwEvent.glfwWindowShouldClose hNull true], some 1)
    else
      let rest := pollLoop env hNull (i + 1) fuel
      (GlfwEvent.glfwWindowShouldClose hNull false ::
        GlfwEvent.glfwSwapBuffers hNull ::
        GlfwEvent.glfwPollEvents :: rest.1, rest.2)

/-- `int main(int argc)` of `src/main.c`.  `argc` is accepted and unused,
exactly as in the source.  the result of `glfwCreateWindow` is NOT checked:
the (possibly null) handle is passed straight into the loop. -/
def main (argc : Int) (env : GlfwEnv) (fuel : Nat) : List GlfwEvent × Option Int :=
  if env.initOk then
    let hNull := !env.createOk
    let body := pollLoop env hNull 0 fuel
    (GlfwEvent.glfwInit true ::
      GlfwEvent.glfwCreateWindow 800 600 "Hello GLFW" env.createOk :: body.1, body.2)
  else
    ([GlfwEvent.glfwInit false], some (-1))

/-- Number of `glfwCreateWindow` calls in a trace. -/
def countCreateGlfw : List GlfwEvent → Nat
  | [] => 0
  | GlfwEvent.glfwCreateWindow _ _ _ _ :: es => countCreateGlfw es + 1
  | _ :: es => countCreateGlfw es

/-- Number of `glfwWindowShouldClose` calls in a trace. -/
def countShouldClose : List GlfwEvent → Nat
  | [] => 0
  | GlfwEvent.glfwWindowShouldClose _ _ :: es => countShouldClose es + 1
  | _ :: es => countShouldClose es

/-- Number of `glfwPollEvents` calls in a trace. -/
def countPollEvents : List GlfwEvent → Nat
  | [] => 0
  | GlfwEvent.glfwPollEvents :: es => countPollEvents es + 1
  | _ :: es => countPollEvents es

/-! ## Message-driven variant (src/ccode/createwindow.c) -/

/-- A Win32 message.  `paint` carries the platform-reported exposed
region (`ps.rcPaint`), abstracted as a number; `quit` carries the
`wParam` that `PostQuitMessage` stored. -/
inductive Msg where
  | close
  | paint (region : Nat)
  | quit (wParam : Int)
  | other (code : Nat)
deriving DecidableEq, Repr

/-- Platform oracle for the Win32 variant: whether `RegisterClassEx`
succeeds, whether `CreateWindowEx` returns a handle, whether the k-th
`BeginPaint` yields a device context, and the result of `DefWindowProc`. -/
structure Win32Env where
  registerOk : Bool
  createOk : Bool
  dcOk : Nat → Bool
  defResult : Msg → Int

/-- One platform call made by `wWinMain` or `WndProc`. -/
inductive W32Event where
  | registerClass (ok : Bool)
  | createWindowEx (width height : Int) (title : String) (ok : Bool)
  | showWindow
  | updateWindow
  | getMessage (m : Msg)
  | translateMessage
  | postQuitMessage (code : Int)
  | beginPaint (dcValid : Bool)
  | fillRect (dcValid : Bool) (region : Nat) (brush : Int)
  | endPaint
  | defWindowProc
deriving DecidableEq, Repr

/-- The Win32 `COLOR_WINDOW` constant (5); the background brush in the
source is `(HBRUSH)(COLOR_WINDOW+1)`. -/
def COLOR_WINDOW : Int := 5

/-- Result of one `WndProc` invocation: the `LRESULT`, the messages
posted to the queue, and the platform calls made. -/
structure WndResult where
  ret : Int
  posted : List Msg
  events : List W32Event
deriving DecidableEq, Repr

/-- `WndProc` of `src/ccode/createwindow.c`.  `paints` is the index of
this paint among all paints so far (selecting the oracle `BeginPaint`
outcome).  `WM_CLOSE`: `PostQuitMessage(0)`, return 0.  `WM_PAINT`:
`BeginPaint` (result unchecked), `FillRect` with brush `COLOR_WINDOW+1`
on the exposed region, `EndPaint`, return 0.  Everything else goes to
`DefWindowProc`. -/
def WndProc (env : Win32Env) (paints : Nat) (m : Msg) : WndResult :=
  match m with
  | Msg.close =>
      ⟨0, [Msg.quit 0], [W32Event.postQuitMessage 0]⟩
  | Msg.paint region =>
      let dc := env.dcOk paints
      ⟨0, [], [W32Event.beginPaint dc,
               W32Event.fillRect dc region (COLOR_WINDOW + 1),
               W32Event.endPaint]⟩
  | m =>
      ⟨env.defResult m, [], [W32Event.defWindowProc]⟩

/-- Whether a message is `WM_PAINT` (used to advance the paint index). -/
def isPaintMsg : Msg → Bool
  | Msg.paint _ => true
  | _ => false

/-- `GetMessage` viewed on the queue head: `some w` when the head is
`WM_QUIT` (so `GetMessage` returns 0 and the loop exits with
`msg.wParam = w`), `none` otherwise. -/
def quitParam : Msg → Option Int
  | Msg.quit w => some w
  | _ => none

/-- The `while (GetMessage(&msg, NULL, 0, 0)) { TranslateMessage;
DispatchMessage; }` loop of `wWinMain`, with `return (int)msg.wParam`
after it.  The queue is the pending platform messages; messages posted
by `WndProc` are appended.  An empty queue means `GetMessage` blocks
forever (`none`); exhausted fuel also yields `none`. -/
def msgLoop (env : Win32Env) : List Msg → Nat → Nat → List W32Event × Option Int
  | _, _, 0 => ([], none)
  | [], _, _ + 1 => ([], none)
  | m :: rest, paints, fuel + 1 =>
    match quitParam m with
    | some w => ([W32Event.getMessage m], some w)
    | none =>
      let r := WndProc env paints m
      let paints2 := if isPaintMsg m then paints + 1 else paints
      let next := msgLoop env (rest ++ r.posted) paints2 fuel
      (W32Event.getMessage m :: W32Event.translateMessage :: (r.events ++ next.1),
       next.2)

/-- `wWinMain` of `src/ccode/createwindow.c`: `RegisterClassEx` (result
unchecked), `CreateWindowEx(..., 800, 600, ...)` with title
"Hello Win32", `return -1` when the handle is null, otherwise
`ShowWindow`, `UpdateWindow` and the message loop on the queue of
messages the platform will deliver. -/
def wWinMain (env : Win32Env) (queue : List Msg) (fuel : Nat) : List W32Event × Option Int :=
  if env.createOk then
    let body := msgLoop env queue 0 fuel
    (W32Event.registerClass env.registerOk ::
      W32Event.createWindowEx 800 600 "Hello Win32" true ::
      W32Event.showWindow :: W32Event.updateWindow :: body.1, body.2)
  else
    ([W32Event.registerClass env.registerOk,
      W32Event.createWindowEx 800 600 "Hello Win32" false], some (-1))

/-- Number of `CreateWindowEx` calls in a Win32 trace. -/
def countCreateW32 : List W32Event → Nat
  | [] => 0
  | W32Event.createWindowEx _ _ _ _ :: es => countCreateW32 es + 1
  | _ :: es => countCreateW32 es

/-- Number of `GetMessage` calls in a Win32 trace. -/
def countGetMessage : List W32Event → Nat
  | [] => 0
  | W32Event.getMessage _ :: es => countGetMessage es + 1
  | _ :: es => countGetMessage es

/-! ## Concrete platform environments used to evaluate the programs -/

/-- GLFW platform where initialization succeeds, window creation fails,
and the should-close query is true from the start. -/
def envCreateFail : GlfwEnv := ⟨true, false, fun _ => true⟩

/-- GLFW platform where everything succeeds and the should-close query
first becomes true on the second poll. -/
def envCloseAt1 : GlfwEnv := ⟨true, true, fun k => decide (1 ≤ k)⟩

/-- GLFW platform where initialization fails. -/
def envInitFail : GlfwEnv := ⟨false, true, fun _ => true⟩

/-- GLFW platform where initialization succeeds, window creation fails,
and the should-close query never becomes true. -/
def envNullWin : GlfwEnv := ⟨true, false, fun _ => false⟩

/-- Win32 platform where every call succeeds. -/
def w32Good : Win32Env := ⟨true, true, fun _ => true, fun _ => 0⟩

/-- Win32 platform where class registration succeeds but window creation
fails. -/
def w32NoCreate : Win32Env := ⟨true, false, fun _ => true, fun _ => 0⟩

/-- Win32 platform where class registration fails and, consequently,
window creation fails as well. -/
def w32NoReg : Win32Env := ⟨false, false, fun _ => true, fun _ => 0⟩

/-! ## Helper lemmas about the loops -/

/-- The poll loop never reports any exit code other than 1: it either is
still running or has fallen out of the while loop to `return 1`. -/
theorem pollLoop_result (env : GlfwEnv) (hNull : Bool) :
    ∀ (fuel i : Nat),
      (pollLoop env hNull i fuel).2 = none ∨ (pollLoop env hNull i fuel).2 = some 1 := by
  intro fuel
  induction fuel with
  | zero => intro i; left; rfl
  | succ f ih =>
    intro i
    cases h : env.shouldClose i with
    | true => right; simp [pollLoop, h]
    | false => simpa [pollLoop, h] using ih (i + 1)

/-- If the should-close query is false strictly before poll `i + d` and
true at poll `i + d`, the poll loop started at index `i` with fuel at
least `d + 1` exits with code 1 after exactly `d + 1` polls and `d`
calls to `glfwPollEvents`. -/
theorem pollLoop_first_true (env : GlfwEnv) (hNull : Bool) :
    ∀ (d i fuel : Nat),
      (∀ j, i ≤ j → j < i + d → env.shouldClose j = false) →
      env.shouldClose (i + d) = true → d + 1 ≤ fuel →
      (pollLoop env hNull i fuel).2 = some 1 ∧
      countShouldClose (pollLoop env hNull i fuel).1 = d + 1 ∧
      countPollEvents (pollLoop env hNull i fuel).1 = d := by
  intro d
  induction d with
  | zero =>
    intro i fuel hbefore hat hfuel
    cases fuel with
    | zero => omega
    | succ f =>
      rw [Nat.add_zero] at hat
      simp [pollLoop, hat, countShouldClose, countPollEvents]
  | succ d ih =>
    intro i fuel hbefore hat hfuel
    cases fuel with
    | zero => omega
    | succ f =>
      have h0 : env.shouldClose i = false := hbefore i (le_refl i) (by omega)
      obtain ⟨h1, h2, h3⟩ := ih (i + 1) f
        (fun j hj1 hj2 => hbefore j (by omega) (by omega))
        (by rw [show i + 1 + d = i + (d + 1) by omega]; exact hat)
        (by omega)
      refine ⟨?_, ?_, ?_⟩ <;>
        simp [pollLoop, h0, countShouldClose, countPollEvents, h1, h2, h3]

/-- Once the should-close flag is raised persistently from poll `N` on,
the poll loop started at index `i` exits with code 1 given fuel at least
`N - i + 1`. -/
theorem pollLoop_persistent (env : GlfwEnv) (hNull : Bool) (N : Nat)
    (hsc : ∀ j, N ≤ j → env.shouldClose j = true) :
    ∀ (fuel i : Nat), N - i + 1 ≤ fuel → (pollLoop env hNull i fuel).2 = some 1 := by
  intro fuel
  induction fuel with
  | zero => intro i h; omega
  | succ f ih =>
    intro i h
    cases hci : env.shouldClose i with
    | true => simp [pollLoop, hci]
    | false =>
      have hiN : i < N := by
        by_contra hge
        have := hsc i (by omega)
        rw [hci] at this
        exact Bool.noConfusion this
      simp only [pollLoop, hci, if_neg Bool.false_ne_true]
      exact ih (i + 1) (by omega)

/-- If the first `WM_QUIT` in the queue sits at index `i` with wParam
`c`, the message loop exits with code `c` given fuel at least `i + 1`:
the quit message is neither missed nor processed twice. -/
theorem msgLoop_first_quit (env : Win32Env) :
    ∀ (i : Nat) (queue : List Msg) (c : Int) (paints fuel : Nat),
      queue[i]? = some (Msg.quit c) →
      (∀ j, j < i → ∀ w, queue[j]? ≠ some (Msg.quit w)) →
      i + 1 ≤ fuel →
      (msgLoop env queue paints fuel).2 = some c := by
  intro i
  induction i with
  | zero =>
    intro queue c paints fuel hget hfirst hfuel
    cases queue with
    | nil => simp at hget
    | cons m rest =>
      cases fuel with
      | zero => omega
      | succ f =>
        simp at hget
        subst hget
        simp [msgLoop, quitParam]
  | succ i ih =>
    intro queue c paints fuel hget hfirst hfuel
    cases queue with
    | nil => simp at hget
    | cons m rest =>
      cases fuel with
      | zero => omega
      | succ f =>
        have hmnq : ∀ w, m ≠ Msg.quit w := by
          intro w hw
          exact hfirst 0 (by omega) w (by simp [hw])
        have hq : quitParam m = none := by
          cases m with
          | close => rfl
          | paint r => rfl
          | quit w => exact absurd rfl (hmnq w)
          | other k => rfl
        have hget' : rest[i]? = some (Msg.quit c) := by
          simpa using hget
        have hlen : i < rest.length := by
          by_contra hle
          rw [List.getElem?_eq_none (by omega)] at hget'
          exact Option.noConfusion hget'
        have happ : (rest ++ (WndProc env paints m).posted)[i]? = some (Msg.quit c) := by
          rw [List.getElem?_append_left hlen]
          exact hget'
        have hfirst' : ∀ j, j < i → ∀ w,
            (rest ++ (WndProc env paints m).posted)[j]? ≠ some (Msg.quit w) := by
          intro j hj w hc
          rw [List.getElem?_append_left (by omega)] at hc
          exact hfirst (j + 1) (by omega) w (by simpa using hc)
        simp only [msgLoop, hq]
        exact ih (rest ++ (WndProc env paints m).posted) c
          (if isPaintMsg m then paints + 1 else paints) f happ hfirst' (by omega)

/-- `WndProc` never calls `CreateWindowEx`. -/
theorem countCreateW32_WndProc (env : Win32Env) (paints : Nat) (m : Msg) :
    countCreateW32 (WndProc env paints m).events = 0 := by
  cases m <;> simp [WndProc, countCreateW32]

/-- `countCreateW32` distributes over append. -/
theorem countCreateW32_append (l1 l2 : List W32Event) :
    countCreateW32 (l1 ++ l2) = countCreateW32 l1 + countCreateW32 l2 := by
  induction l1 with
  | nil => simp [countCreateW32]
  | cons e es ih => cases e <;> simp [countCreateW32, ih] <;> omega

/-- The message loop never calls `CreateWindowEx`. -/
theorem countCreateW32_msgLoop (env : Win32Env) :
    ∀ (fuel : Nat) (queue : List Msg) (paints : Nat),
      countCreateW32 (msgLoop env queue paints fuel).1 = 0 := by
  intro fuel
  induction fuel with
  | zero => intro queue paints; simp [msgLoop, countCreateW32]
  | succ f ih =>
    intro queue paints
    cases queue with
    | nil => simp [msgLoop, countCreateW32]
    | cons m rest =>
      cases hq : quitParam m with
      | some w => simp [msgLoop, hq, countCreateW32]
      | none =>
        simp [msgLoop, hq, countCreateW32, countCreateW32_append,
          countCreateW32_WndProc, ih]

/-- The poll loop never calls `glfwCreateWindow`. -/
theorem countCreateGlfw_pollLoop (env : GlfwEnv) (hNull : Bool) :
    ∀ (fuel i : Nat), countCreateGlfw (pollLoop env hNull i fuel).1 = 0 := by
  intro fuel
  induction fuel with
  | zero => intro i; simp [pollLoop, countCreateGlfw]
  | succ f ih =>
    intro i
    cases h : env.shouldClose i with
    | true => simp [pollLoop, h, countCreateGlfw]
    | false => simp [pollLoop, h, countCreateGlfw, ih]

/-! ## The claims -/

/-- C1, counterexample: the claim says a failed window creation makes
the process exit with code -1 without running the event loop in BOTH
variants.  In the poll variant (`src/main.c`) the handle is never
checked: with `glfwInit` succeeding, `glfwCreateWindow` failing, and the
should-close query immediately true, `main` polls the query (the loop
condition runs) and returns exit code 1, not -1. -/
theorem C1_poll_ignores_create_failure :
    (CTree.main 1 envCreateFail 5).2 = some 1 ∧
    (CTree.main 1 envCreateFail 5).2 ≠ some (-1) ∧
    countShouldClose (CTree.main 1 envCreateFail 5).1 = 1 := by
  refine ⟨?_, ?_, ?_⟩ <;> decide

/-- C1 (amended): in the message-driven variant (`wWinMain`), window
creation failure terminates the process with exit code -1 without
running the event loop (no `GetMessage` call ever happens); the
poll-driven variant does not check the handle and proceeds regardless. -/
theorem C1_create_fail_exits_minus_one (env : Win32Env) (queue : List Msg) (fuel : Nat)
    (h : env.createOk = false) :
    (wWinMain env queue fuel).2 = some (-1) ∧
    countGetMessage (wWinMain env queue fuel).1 = 0 := by
  simp [wWinMain, h, countGetMessage]

/-- Witness for C1: the amended theorem evaluated on the concrete
platform `w32NoCreate`. -/
theorem C1_create_fail_witness :
    (wWinMain w32NoCreate [Msg.close] 3).2 = some (-1) ∧
    countGetMessage (wWinMain w32NoCreate [Msg.close] 3).1 = 0 :=
  C1_create_fail_exits_minus_one w32NoCreate [Msg.close] 3 rfl

/-- C2, counterexample: the claim says the should-close query is never
polled in a loop and the process exits immediately with code 1 without
ever entering a dispatch cycle.  On the platform `envCloseAt1` (query
false on the first poll, true on the second) `main` polls the query
twice, runs one full dispatch cycle (`glfwPollEvents` is called once),
and only then returns 1 — createWindow having been called once. -/
theorem C2_loop_is_entered :
    countShouldClose (CTree.main 0 envCloseAt1 5).1 = 2 ∧
    countPollEvents (CTree.main 0 envCloseAt1 5).1 = 1 ∧
    countCreateGlfw (CTree.main 0 envCloseAt1 5).1 = 1 ∧
    (CTree.main 0 envCloseAt1 5).2 = some 1 := by
  refine ⟨?_, ?_, ?_, ?_⟩ <;> decide

/-- C2 (amended): in the poll-driven variant, after `createWindow` is
called once, `main` polls the should-close query repeatedly in a loop,
running one dispatch cycle (`glfwSwapBuffers` + `glfwPollEvents`) per
false poll; when the query first returns true (on poll `k`, given fuel
at least `k + 1`) the loop exits and the process returns exit code 1. -/
theorem C2_poll_loop_until_close (env : GlfwEnv) (argc : Int) (k fuel : Nat)
    (hinit : env.initOk = true)
    (hbefore : ∀ j, j < k → env.shouldClose j = false)
    (hat : env.shouldClose k = true)
    (hfuel : k + 1 ≤ fuel) :
    (CTree.main argc env fuel).2 = some 1 ∧
    countShouldClose (CTree.main argc env fuel).1 = k + 1 ∧
    countPollEvents (CTree.main argc env fuel).1 = k ∧
    countCreateGlfw (CTree.main argc env fuel).1 = 1 := by
  obtain ⟨h1, h2, h3⟩ := pollLoop_first_true env (!env.createOk) k 0 fuel
    (fun j hj1 hj2 => hbefore j (by omega)) (by simpa using hat) hfuel
  refine ⟨?_, ?_, ?_, ?_⟩ <;>
    simp [CTree.main, hinit, countShouldClose, countPollEvents, countCreateGlfw,
      countCreateGlfw_pollLoop, h1, h2, h3]

/-- Witness for C2: the amended theorem evaluated on `envCloseAt1` with
the close raised at poll 1. -/
theorem C2_poll_loop_witness :
    (CTree.main 0 envCloseAt1 5).2 = some 1 ∧
    countShouldClose (CTree.main 0 envCloseAt1 5).1 = 1 + 1 ∧
    countPollEvents (CTree.main 0 envCloseAt1 5).1 = 1 ∧
    countCreateGlfw (CTree.main 0 envCloseAt1 5).1 = 1 :=
  C2_poll_loop_until_close envCloseAt1 0 1 5 rfl
    (fun j hj => by
      have hj0 : j = 0 := by omega
      subst hj0; rfl)
    rfl (by omega)

/-- C3: whenever `glfwInit` fails, the process exits with code -1 and
`glfwCreateWindow` is never called. -/
theorem C3_init_fail_short_circuits (argc : Int) (env : GlfwEnv) (fuel : Nat)
    (h : env.initOk = false) :
    (CTree.main argc env fuel).2 = some (-1) ∧
    countCreateGlfw (CTree.main argc env fuel).1 = 0 := by
  simp [CTree.main, h, countCreateGlfw]

/-- Witness for C3: evaluated on the concrete platform `envInitFail`. -/
theorem C3_init_fail_witness :
    (CTree.main 0 envInitFail 3).2 = some (-1) ∧
    countCreateGlfw (CTree.main 0 envInitFail 3).1 = 0 :=
  C3_init_fail_short_circuits 0 envInitFail 3 rfl

/-- C4: in the message-driven variant, when registration and window
creation succeed and a single `WM_CLOSE` is delivered, `WndProc` posts
`WM_QUIT` with wParam 0, `GetMessage` returns 0 on it, and `wWinMain`
returns that wParam: exit code 0 (fuel 2 suffices: one iteration for the
close, one for the quit). -/
theorem C4_single_close_exits_zero (env : Win32Env) (fuel : Nat)
    (hreg : env.registerOk = true) (hcreate : env.createOk = true)
    (hfuel : 2 ≤ fuel) :
    (wWinMain env [Msg.close] fuel).2 = some 0 ∧
    W32Event.registerClass true ∈ (wWinMain env [Msg.close] fuel).1 := by
  obtain ⟨f, rfl⟩ : ∃ f, fuel = f + 2 := ⟨fuel - 2, by omega⟩
  refine ⟨?_, ?_⟩ <;>
    simp [wWinMain, hreg, hcreate, msgLoop, WndProc, quitParam, isPaintMsg]

/-- Witness for C4: evaluated on the all-succeeding platform `w32Good`. -/
theorem C4_single_close_witness :
    (wWinMain w32Good [Msg.close] 2).2 = some 0 ∧
    W32Event.registerClass true ∈ (wWinMain w32Good [Msg.close] 2).1 :=
  C4_single_close_exits_zero w32Good 2 rfl rfl (by omega)

/-- C5: once the close signal is raised, each loop terminates within a
bounded number of iterations, and the signal is neither missed nor
processed twice.  Poll variant: if the should-close flag is persistently
true from poll `N` on, fuel `N + 1` suffices for `main` to exit (with
code 1).  Message variant: if the first `WM_QUIT` in the queue (the
posted quit message) sits at index `i`, fuel `i + 1` suffices for
`wWinMain` to exit, and the exit code is exactly the wParam of that
first quit message. -/
theorem C5_close_signal_terminates :
    (∀ (env : GlfwEnv) (argc : Int) (N fuel : Nat),
       env.initOk = true →
       (∀ j, N ≤ j → env.shouldClose j = true) →
       N + 1 ≤ fuel →
       (CTree.main argc env fuel).2 = some 1) ∧
    (∀ (env : Win32Env) (queue : List Msg) (i : Nat) (c : Int) (fuel : Nat),
       env.createOk = true →
       queue[i]? = some (Msg.quit c) →
       (∀ j, j < i → ∀ w, queue[j]? ≠ some (Msg.quit w)) →
       i + 1 ≤ fuel →
       (wWinMain env queue fuel).2 = some c) := by
  constructor
  · intro env argc N fuel hinit hsc hfuel
    simp only [CTree.main, hinit, if_true]
    exact pollLoop_persistent env (!env.createOk) N hsc fuel 0 (by omega)
  · intro env queue i c fuel hcreate hget hfirst hfuel
    simp only [wWinMain, hcreate, if_true]
    exact msgLoop_first_quit env i queue c 0 fuel hget hfirst hfuel

/-- Witness for C5: both parts evaluated on concrete platforms — the
poll variant with the flag raised from poll 1 on, and the message
variant with a `WM_QUIT` (wParam 7) at the head of the queue. -/
theorem C5_close_signal_witness :
    (CTree.main 0 envCloseAt1 5).2 = some 1 ∧
    (wWinMain w32Good [Msg.quit 7] 3).2 = some 7 :=
  ⟨C5_close_signal_terminates.1 envCloseAt1 0 1 5 rfl
      (fun j hj => by
        show decide (1 ≤ j) = true
        simpa using hj)
      (by omega),
   C5_close_signal_terminates.2 w32Good [Msg.quit 7] 0 7 3 rfl rfl
      (fun j hj w => absurd hj (Nat.not_lt_zero j)) (by omega)⟩

/-- C6: every `WM_PAINT` message makes `WndProc` call `BeginPaint`,
fill the exposed region with the background brush `COLOR_WINDOW + 1`
via `FillRect`, and call `EndPaint`; the `BeginPaint` result is passed
on unchecked (when the device context is invalid the fill is a no-op),
no message is posted, and the handler returns 0 in every case —
best-effort fill, no error propagated. -/
theorem C6_paint_best_effort (env : Win32Env) (paints region : Nat) :
    (WndProc env paints (Msg.paint region)).ret = 0 ∧
    (WndProc env paints (Msg.paint region)).posted = [] ∧
    (WndProc env paints (Msg.paint region)).events =
      [W32Event.beginPaint (env.dcOk paints),
       W32Event.fillRect (env.dcOk paints) region (COLOR_WINDOW + 1),
       W32Event.endPaint] :=
  ⟨rfl, rfl, rfl⟩

/-- C7: at most one live window handle ever exists.  The poll variant
calls `glfwCreateWindow` exactly once when `glfwInit` succeeds and never
otherwise; the message variant calls `CreateWindowEx` exactly once in
every run.  No second handle is ever produced in either driver. -/
theorem C7_at_most_one_window :
    (∀ (argc : Int) (env : GlfwEnv) (fuel : Nat),
       countCreateGlfw (CTree.main argc env fuel).1 =
         if env.initOk then 1 else 0) ∧
    (∀ (env : Win32Env) (queue : List Msg) (fuel : Nat),
       countCreateW32 (wWinMain env queue fuel).1 = 1) := by
  constructor
  · intro argc env fuel
    cases h : env.initOk <;>
      simp [CTree.main, h, countCreateGlfw, countCreateGlfw_pollLoop]
  · intro env queue fuel
    cases h : env.createOk <;>
      simp [wWinMain, h, countCreateW32, countCreateW32_msgLoop]

/-- C8: the poll-variant entry point ignores its argument count — for
any two values of `argc`, `main` makes the same sequence of platform
calls and returns the same exit code. -/
theorem C8_argc_noninterference (a1 a2 : Int) (env : GlfwEnv) (fuel : Nat) :
    CTree.main a1 env fuel = CTree.main a2 env fuel := rfl

/-- C9: the result of `glfwCreateWindow` is never checked — when window
creation fails (null handle) but `glfwInit` succeeded and the first poll
says not-closed, `main` still calls `glfwWindowShouldClose`,
`glfwSwapBuffers` and `glfwPollEvents` with the null handle, and never
terminates with the creation-failure code -1. -/
theorem C9_null_handle_used (argc : Int) (env : GlfwEnv) (fuel : Nat)
    (hinit : env.initOk = true) (hcreate : env.createOk = false)
    (hsc : env.shouldClose 0 = false) (hfuel : 1 ≤ fuel) :
    GlfwEvent.glfwWindowShouldClose true false ∈ (CTree.main argc env fuel).1 ∧
    GlfwEvent.glfwSwapBuffers true ∈ (CTree.main argc env fuel).1 ∧
    GlfwEvent.glfwPollEvents ∈ (CTree.main argc env fuel).1 ∧
    (CTree.main argc env fuel).2 ≠ some (-1) := by
  obtain ⟨f, rfl⟩ : ∃ f, fuel = f + 1 := ⟨fuel - 1, by omega⟩
  refine ⟨?_, ?_, ?_, ?_⟩
  · simp [CTree.main, hinit, hcreate, pollLoop, hsc]
  · simp [CTree.main, hinit, hcreate, pollLoop, hsc]
  · simp [CTree.main, hinit, hcreate, pollLoop, hsc]
  · rcases pollLoop_result env (!env.createOk) (f + 1) 0 with h | h <;>
      simp [CTree.main, hinit, h]

/-- Witness for C9: evaluated on the concrete platform `envNullWin`. -/
theorem C9_null_handle_witness :
    GlfwEvent.glfwWindowShouldClose true false ∈ (CTree.main 0 envNullWin 2).1 ∧
    GlfwEvent.glfwSwapBuffers true ∈ (CTree.main 0 envNullWin 2).1 ∧
    GlfwEvent.glfwPollEvents ∈ (CTree.main 0 envNullWin 2).1 ∧
    (CTree.main 0 envNullWin 2).2 ≠ some (-1) :=
  C9_null_handle_used 0 envNullWin 2 rfl rfl rfl (by omega)

/-- C10: the result of `RegisterClassEx` is never checked — when
registration fails (and hence window creation fails), `wWinMain` still
proceeds to call `CreateWindowEx` (exactly once), and the failure
surfaces only as the window-creation failure exit code -1. -/
theorem C10_register_unchecked (env : Win32Env) (queue : List Msg) (fuel : Nat)
    (hreg : env.registerOk = false) (hcreate : env.createOk = false) :
    W32Event.registerClass false ∈ (wWinMain env queue fuel).1 ∧
    countCreateW32 (wWinMain env queue fuel).1 = 1 ∧
    (wWinMain env queue fuel).2 = some (-1) := by
  refine ⟨?_, ?_, ?_⟩ <;> simp [wWinMain, hreg, hcreate, countCreateW32]

/-- Witness for C10: evaluated on the concrete platform `w32NoReg`. -/
theorem C10_register_unchecked_witness :
    W32Event.registerClass false ∈ (wWinMain w32NoReg [Msg.close] 4).1 ∧
    countCreateW32 (wWinMain w32NoReg [Msg.close] 4).1 = 1 ∧
    (wWinMain w32NoReg [Msg.close] 4).2 = some (-1) :=
  C10_register_unchecked w32NoReg [Msg.close] 4 rfl rfl

end CTree
